import Mathlib

set_option maxRecDepth 20000

/-!
Shallow embedding of `src/main.py` (BroadcastBuddy): the transcription
worker loop (`TranscriptionWorker.run`), segment download
(`TranscriptionWorker.download_segment`), and incremental summarization
(`TranscriptionWorker.update_summary`).

External effects (streamlink reads, ffmpeg, whisper, the ollama backend)
are modelled as per-cycle oracle inputs; file-system scratch files are
tracked per cycle by whether the cycle deleted them.  Python strings are
Lean `String`s (`len` is `String.length`, `+` is `++`, truthiness of a
string is non-emptiness).
-/

namespace BroadcastBuddy

/-- `OLLAMA_CHUNK_SIZE_CHARS = 500` (src/main.py line 30): the
accumulator threshold, a literal constant. -/
def OLLAMA_CHUNK_SIZE_CHARS : Nat := 500

/-- Python's `str.strip()`: drop leading and trailing whitespace. -/
def pyStrip (s : String) : String :=
  String.mk (((s.data.dropWhile Char.isWhitespace).reverse.dropWhile
      Char.isWhitespace).reverse)

/-- What `json.loads(result.stdout)` yields in `update_summary`
(src/main.py lines 137-141), classified by the shape the code inspects:
a decode failure (`json.JSONDecodeError`), a JSON object (Python dict)
whose optional string value under the key `completion` is recorded, or a
JSON value that is not an object (on which `.get` raises
`AttributeError`). -/
inductive JsonOutcome where
  | decodeError : JsonOutcome
  | dict (completion : Option String) : JsonOutcome
  | nonDict : JsonOutcome
deriving DecidableEq, Repr

/-- Outcome of the `subprocess.run(['ollama', ...], check=True)` backend
invocation in `update_summary` (src/main.py lines 133-136): success
carries the captured stdout together with how `json.loads` parses it;
`check=True` turns a non-zero exit into `subprocess.CalledProcessError`. -/
inductive BackendResult where
  | success (stdout : String) (parsed : JsonOutcome) : BackendResult
  | calledProcessError : BackendResult
deriving DecidableEq, Repr

/-- A Python exception that escapes the modelled code uncaught. -/
inductive PyExc where
  | attributeError : PyExc
deriving DecidableEq, Repr

/-- `TranscriptionWorker.update_summary(current, new_chunk)`
(src/main.py lines 104-144).  The prompt is built from `current` and
`new_chunk` and handed to the backend; the backend's behaviour is the
oracle argument `r`.  On `CalledProcessError` the current summary is
returned unchanged; on success, `json.loads` is tried: a decode error
falls back to `result.stdout.strip()`, a dict returns
`parsed.get('completion', current).strip()`, and a non-dict JSON value
makes `.get` raise `AttributeError`, which no handler catches. -/
def update_summary (current new_chunk : String) (r : BackendResult) :
    Except PyExc String :=
  match r with
  | .calledProcessError => .ok current
  | .success stdout parsed =>
    match parsed with
    | .decodeError => .ok (pyStrip stdout)
    | .dict (some c) => .ok (pyStrip c)
    | .dict none => .ok (pyStrip current)
    | .nonDict => .error .attributeError

/-- The mutable fields of `TranscriptionWorker` that the loop updates
(src/main.py lines 42-43): `summary` and `transcript_accum`, both
initialised to the empty string. -/
structure WorkerState where
  summary : String
  transcript_accum : String
deriving DecidableEq, Repr

/-- `TranscriptionWorker.__init__`: `summary = ""`,
`transcript_accum = ""`. -/
def initState : WorkerState := ⟨"", ""⟩

/-- The oracle input deciding one iteration of the `run` loop
(src/main.py lines 49-76):
* `dlFail` — `download_segment` returned `False` (the loop sleeps and
  `continue`s without removing the two scratch files);
* `extractFail` — `extract_audio` or `whisper_model.transcribe` raised
  (the `except` logs and `continue`s, the `finally` removes both files);
* `ok chunk backend` — transcription succeeded with text `chunk`
  (possibly empty), and `backend` is how the ollama invocation would
  behave if a summarization is triggered this cycle. -/
inductive CycleEnv where
  | dlFail : CycleEnv
  | extractFail : CycleEnv
  | ok (chunk : String) (backend : BackendResult) : CycleEnv
deriving DecidableEq, Repr

/-- Per-cycle observables: whether the cycle's two scratch files
(`temp_stream`, `temp_audio`, created with `delete=False`) were removed
by the end of the cycle — deletion happens only in the `finally` of the
transcription `try` — and the batch passed to `update_summary` this
cycle, if a summarization was triggered. -/
structure CycleRec where
  filesDeleted : Bool
  sumBatch : Option String
deriving DecidableEq, Repr

/-- One iteration of the `while self._running` loop in
`TranscriptionWorker.run` (src/main.py lines 49-76), given the worker
state and the cycle's oracle.  Returns the new state and the cycle
record; when `update_summary` raises (its call at line 72 sits outside
the `try`), the error carries the exception together with the worker
state at thread death — `summary` unchanged (the assignment at line 72
never completes) and `transcript_accum` holding the text appended at
line 70, since the reset at line 73 never runs — and the crashing
cycle's record (its scratch files were already removed by the
`finally`, and the batch was handed to `update_summary`). -/
def cycleStep (s : WorkerState) (e : CycleEnv) :
    Except (PyExc × WorkerState × CycleRec) (WorkerState × CycleRec) :=
  match e with
  | .dlFail => .ok (s, ⟨false, none⟩)
  | .extractFail => .ok (s, ⟨true, none⟩)
  | .ok chunk backend =>
    if chunk = "" then .ok (s, ⟨true, none⟩)
    else
      let accum : String := s.transcript_accum ++ " " ++ chunk
      if OLLAMA_CHUNK_SIZE_CHARS ≤ accum.length then
        match update_summary s.summary accum backend with
        | .ok newSummary => .ok (⟨newSummary, ""⟩, ⟨true, some accum⟩)
        | .error exc => .error (exc, ⟨s.summary, accum⟩, ⟨true, some accum⟩)
      else .ok (⟨s.summary, accum⟩, ⟨true, none⟩)

/-- Observable outcome of one Session: the worker state when the loop
exits (or when the thread dies on an uncaught exception), the per-cycle
records, whether the thread crashed, and the Notifier (mail) deliveries
made during the session.  `src/main.py` imports `smtplib` and
`MIMEText` but never invokes them: neither `run` nor
`IPTVApp.closeEvent` (which only calls `worker.stop()` and
`media_player.stop()`) sends anything, so `mails` records every
delivery and stays empty. -/
structure SessionResult where
  final : WorkerState
  recs : List CycleRec
  crashed : Bool
  mails : List String
deriving DecidableEq, Repr

/-- The `while self._running` loop run from state `s` over the cycles
that execute before the stop flag is observed (`envs` lists their
oracles; the flag is polled only at the top of the loop, so the list
ending is the stop).  After the loop exits nothing further happens: no
draining flush, no notification.  On a crash, the result holds the
worker state at thread death — including the just-appended, never-reset
`transcript_accum` — and the crashing cycle's record. -/
def runFrom (s : WorkerState) : List CycleEnv → SessionResult
  | [] => ⟨s, [], false, []⟩
  | e :: es =>
    match cycleStep s e with
    | .ok (s', r) =>
      let rest := runFrom s' es
      ⟨rest.final, r :: rest.recs, rest.crashed, rest.mails⟩
    | .error (_, sDead, r) => ⟨sDead, [r], true, []⟩

/-- A whole Session: `TranscriptionWorker.run` from the freshly
constructed worker (`__init__` state) until stop or crash. -/
def runSession (envs : List CycleEnv) : SessionResult :=
  runFrom initState envs

/-- The batches handed to `update_summary` during a session, in order. -/
def sessionBatches (res : SessionResult) : List String :=
  res.recs.filterMap (fun r => r.sumBatch)

/-- The read/write loop inside `download_segment` (src/main.py lines
86-91): consume successive `fd.read(1024)` results, stopping at the
first empty read (`if not data: break`); every chunk read before that
is written to the output file.  The input list holds the reads the
source would deliver while `time.time() - start < duration` still
holds, so exhausting the list is the time budget elapsing. -/
def segLoop : List String → List String
  | [] => []
  | d :: ds => if d = "" then [] else d :: segLoop ds

/-- `TranscriptionWorker.download_segment(url, duration, output_path)`
(src/main.py lines 78-95), abstracted over its environment: `raises`
models an exception raised anywhere in the `try` body (caught by the
handler, which logs and returns `False`); `best` is
`streamlink.streams(url).get("best")` (`none` when no rendition is
offered, in which case the code returns `False`); `reads` is the list
of `fd.read(1024)` results available within the time budget.  Returns
the reported success flag paired with the chunks written to
`output_path`. -/
def download_segment (raises : Bool) (best : Option Unit)
    (reads : List String) : Bool × List String :=
  if raises then (false, [])
  else
    match best with
    | none => (false, [])
    | some _ => (true, segLoop reads)

/-- One execution of `self.transcript_accum += " " + chunk`
(src/main.py line 70). -/
def appendChunk (accum chunk : String) : String := accum ++ " " ++ chunk

/-- The accumulator text after appending chunks `cs` in order, starting
from an empty accumulator (a fresh worker, or the state right after a
reset at line 73). -/
def pendingOf (cs : List String) : String := cs.foldl appendChunk ""

/-- The explicit shape `" " ++ c1 ++ " " ++ c2 ++ ... ++ " " ++ ck`:
one separating space *before every chunk, the first included*. -/
def pendingShape : List String → String
  | [] => ""
  | c :: cs => " " ++ c ++ pendingShape cs

/-- Invariant on the accumulator text: it is empty or begins with a
space character. -/
def accumShapeInv (s : String) : Prop := s = "" ∨ ∃ t, s = " " ++ t

/-- A 499-character chunk, used to instantiate threshold-crossing
statements on concrete inputs (a fresh accumulator plus the separating
space reaches exactly the 500-character threshold). -/
def chunk499 : String := String.mk (List.replicate 499 'a')

/-! ### Helper lemmas -/

/-- Folding `appendChunk` from any starting accumulator appends the
`pendingShape` of the chunk list. -/
theorem foldl_appendChunk (cs : List String) : ∀ a : String,
    cs.foldl appendChunk a = a ++ pendingShape cs := by
  induction cs with
  | nil => intro a; simp [pendingShape, String.append_empty]
  | cons c cs ih =>
    intro a
    simp only [List.foldl_cons, pendingShape, ih, appendChunk,
      String.append_assoc]

/-- Length of the pending shape: one separator per chunk plus the chunk
lengths. -/
theorem pendingShape_length (cs : List String) :
    (pendingShape cs).length = cs.length + (cs.map String.length).sum := by
  induction cs with
  | nil => rfl
  | cons c cs ih =>
    simp only [pendingShape, String.length_append, ih, List.length_cons,
      List.map_cons, List.sum_cons]
    have hone : (" " : String).length = 1 := rfl
    omega

/-- A non-empty pending shape begins with a space. -/
theorem pendingShape_starts_space (cs : List String) (h : cs ≠ []) :
    ∃ t, pendingShape cs = " " ++ t := by
  cases cs with
  | nil => exact absurd rfl h
  | cons c cs =>
    exact ⟨c ++ pendingShape cs, by simp [pendingShape, String.append_assoc]⟩

/-- Appending `" " ++ chunk` to a shape-invariant accumulator yields a
string that begins with a space. -/
theorem append_starts_space (a chunk : String) (hs : accumShapeInv a) :
    ∃ t, a ++ " " ++ chunk = " " ++ t := by
  rcases hs with hs | ⟨t, ht⟩
  · exact ⟨chunk, by rw [hs, String.empty_append]⟩
  · exact ⟨t ++ " " ++ chunk, by simp [ht, String.append_assoc]⟩

/-- Characterization of a crashing cycle: only an `ok`-cycle with a
non-empty chunk whose append crosses the threshold can crash (the
`update_summary` call happens nowhere else), and at thread death the
summary is unchanged while the accumulator holds the just-appended
batch, which was recorded as handed to the summarizer. -/
theorem cycleStep_crash (s : WorkerState) (e : CycleEnv) (exc : PyExc)
    (sDead : WorkerState) (r : CycleRec)
    (h : cycleStep s e = .error (exc, sDead, r)) :
    ∃ chunk backend, e = CycleEnv.ok chunk backend ∧ chunk ≠ "" ∧
      sDead = ⟨s.summary, s.transcript_accum ++ " " ++ chunk⟩ ∧
      r = ⟨true, some (s.transcript_accum ++ " " ++ chunk)⟩ ∧
      OLLAMA_CHUNK_SIZE_CHARS ≤
        (s.transcript_accum ++ " " ++ chunk).length := by
  cases e with
  | dlFail => exact Except.noConfusion h
  | extractFail => exact Except.noConfusion h
  | ok chunk backend =>
    by_cases hc : chunk = ""
    · simp only [cycleStep, hc, if_pos] at h
      exact Except.noConfusion h
    · by_cases hlen : OLLAMA_CHUNK_SIZE_CHARS ≤
          (s.transcript_accum ++ " " ++ chunk).length
      · cases hu : update_summary s.summary
            (s.transcript_accum ++ " " ++ chunk) backend with
        | ok ns =>
          simp only [cycleStep, if_neg hc, if_pos hlen, hu] at h
          exact Except.noConfusion h
        | error exc2 =>
          simp only [cycleStep, if_neg hc, if_pos hlen, hu,
            Except.error.injEq, Prod.mk.injEq] at h
          obtain ⟨h1, h2, h3⟩ := h
          exact ⟨chunk, backend, rfl, hc, h2.symm, h3.symm, hlen⟩
      · simp only [cycleStep, if_neg hc, if_neg hlen] at h
        exact Except.noConfusion h

/-- A completed cycle preserves the accumulator shape invariant, and any
batch it hands to the summarizer begins with a space. -/
theorem cycleStep_shape (s : WorkerState) (e : CycleEnv) (s' : WorkerState)
    (r : CycleRec) (hs : accumShapeInv s.transcript_accum)
    (h : cycleStep s e = .ok (s', r)) :
    accumShapeInv s'.transcript_accum ∧
      ∀ b, r.sumBatch = some b → ∃ t, b = " " ++ t := by
  have hbatch : ∃ t, s.transcript_accum ++ " " = " " ++ t := by
    rcases hs with hs | ⟨t, ht⟩
    · exact ⟨"", by rw [hs, String.empty_append, String.append_empty]⟩
    · exact ⟨t ++ " ", by rw [ht, String.append_assoc]⟩
  cases e with
  | dlFail =>
    simp only [cycleStep, Except.ok.injEq, Prod.mk.injEq] at h
    obtain ⟨h1, h2⟩ := h
    subst h1; subst h2
    exact ⟨hs, by intro b hb; simp at hb⟩
  | extractFail =>
    simp only [cycleStep, Except.ok.injEq, Prod.mk.injEq] at h
    obtain ⟨h1, h2⟩ := h
    subst h1; subst h2
    exact ⟨hs, by intro b hb; simp at hb⟩
  | ok chunk backend =>
    by_cases hc : chunk = ""
    · simp only [cycleStep, hc, if_pos, Except.ok.injEq, Prod.mk.injEq] at h
      obtain ⟨h1, h2⟩ := h
      subst h1; subst h2
      exact ⟨hs, by intro b hb; simp at hb⟩
    · obtain ⟨t0, ht0⟩ := hbatch
      have hacc : ∃ t, s.transcript_accum ++ " " ++ chunk = " " ++ t :=
        ⟨t0 ++ chunk, by rw [ht0, String.append_assoc]⟩
      by_cases hlen :
          OLLAMA_CHUNK_SIZE_CHARS ≤ (s.transcript_accum ++ " " ++ chunk).length
      · cases hu : update_summary s.summary
            (s.transcript_accum ++ " " ++ chunk) backend with
        | ok ns =>
          simp only [cycleStep, if_neg hc, if_pos hlen, hu,
            Except.ok.injEq, Prod.mk.injEq] at h
          obtain ⟨h1, h2⟩ := h
          subst h1; subst h2
          refine ⟨Or.inl rfl, ?_⟩
          intro b hb
          simp only [Option.some.injEq] at hb
          subst hb
          exact hacc
        | error exc =>
          simp only [cycleStep, if_neg hc, if_pos hlen, hu] at h
          exact Except.noConfusion h
      · simp only [cycleStep, if_neg hc, if_neg hlen,
          Except.ok.injEq, Prod.mk.injEq] at h
        obtain ⟨h1, h2⟩ := h
        subst h1; subst h2
        exact ⟨Or.inr hacc, by intro b hb; simp at hb⟩

/-- A completed cycle keeps the accumulator strictly below the
threshold, and any batch it hands to the summarizer has length at least
the threshold. -/
theorem cycleStep_length (s : WorkerState) (e : CycleEnv) (s' : WorkerState)
    (r : CycleRec)
    (hs : s.transcript_accum.length < OLLAMA_CHUNK_SIZE_CHARS)
    (h : cycleStep s e = .ok (s', r)) :
    s'.transcript_accum.length < OLLAMA_CHUNK_SIZE_CHARS ∧
      ∀ b, r.sumBatch = some b → OLLAMA_CHUNK_SIZE_CHARS ≤ b.length := by
  cases e with
  | dlFail =>
    simp only [cycleStep, Except.ok.injEq, Prod.mk.injEq] at h
    obtain ⟨h1, h2⟩ := h
    subst h1; subst h2
    exact ⟨hs, by intro b hb; simp at hb⟩
  | extractFail =>
    simp only [cycleStep, Except.ok.injEq, Prod.mk.injEq] at h
    obtain ⟨h1, h2⟩ := h
    subst h1; subst h2
    exact ⟨hs, by intro b hb; simp at hb⟩
  | ok chunk backend =>
    by_cases hc : chunk = ""
    · simp only [cycleStep, hc, if_pos, Except.ok.injEq, Prod.mk.injEq] at h
      obtain ⟨h1, h2⟩ := h
      subst h1; subst h2
      exact ⟨hs, by intro b hb; simp at hb⟩
    · by_cases hlen :
          OLLAMA_CHUNK_SIZE_CHARS ≤ (s.transcript_accum ++ " " ++ chunk).length
      · cases hu : update_summary s.summary
            (s.transcript_accum ++ " " ++ chunk) backend with
        | ok ns =>
          simp only [cycleStep, if_neg hc, if_pos hlen, hu,
            Except.ok.injEq, Prod.mk.injEq] at h
          obtain ⟨h1, h2⟩ := h
          subst h1; subst h2
          refine ⟨by simp [OLLAMA_CHUNK_SIZE_CHARS, String.length], ?_⟩
          intro b hb
          simp only [Option.some.injEq] at hb
          subst hb
          exact hlen
        | error exc =>
          simp only [cycleStep, if_neg hc, if_pos hlen, hu] at h
          exact Except.noConfusion h
      · simp only [cycleStep, if_neg hc, if_neg hlen,
          Except.ok.injEq, Prod.mk.injEq] at h
        obtain ⟨h1, h2⟩ := h
        subst h1; subst h2
        exact ⟨Nat.lt_of_not_le hlen, by intro b hb; simp at hb⟩

/-- No execution of the worker loop ever produces a mail delivery. -/
theorem runFrom_mails (envs : List CycleEnv) : ∀ s : WorkerState,
    (runFrom s envs).mails = [] := by
  induction envs with
  | nil => intro s; rfl
  | cons e es ih =>
    intro s
    cases hstep : cycleStep s e with
    | ok pr =>
      obtain ⟨s', r⟩ := pr
      simp only [runFrom, hstep]
      exact ih s'
    | error err =>
      obtain ⟨exc, sDead, r⟩ := err
      simp only [runFrom, hstep]

/-- Every batch handed to the summarizer during a loop execution begun
with a shape-invariant accumulator begins with a space. -/
theorem runFrom_batches_space (envs : List CycleEnv) : ∀ s : WorkerState,
    accumShapeInv s.transcript_accum →
    ∀ b ∈ sessionBatches (runFrom s envs), ∃ t, b = " " ++ t := by
  induction envs with
  | nil =>
    intro s _ b hb
    simp [runFrom, sessionBatches] at hb
  | cons e es ih =>
    intro s hs b hb
    cases hstep : cycleStep s e with
    | ok pr =>
      obtain ⟨s', r⟩ := pr
      have hinv := cycleStep_shape s e s' r hs hstep
      simp only [runFrom, hstep, sessionBatches, List.filterMap_cons] at hb
      cases hr : r.sumBatch with
      | none =>
        rw [hr] at hb
        exact ih s' hinv.1 b hb
      | some a =>
        rw [hr] at hb
        rcases List.mem_cons.mp hb with hba | hbm
        · subst hba; exact hinv.2 b hr
        · exact ih s' hinv.1 b hbm
    | error err =>
      obtain ⟨exc, sDead, r⟩ := err
      obtain ⟨chunk, backend, he, hc, hsDead, hr, hlen⟩ :=
        cycleStep_crash s e exc sDead r hstep
      subst hr
      simp only [runFrom, hstep, sessionBatches, List.filterMap_cons,
        List.filterMap_nil, List.mem_singleton] at hb
      subst hb
      exact append_starts_space s.transcript_accum chunk hs

/-- Batches are at least the threshold; the final accumulator is
strictly below it on a normal stop, and at least it at thread death,
for loop executions begun below the threshold. -/
theorem runFrom_lengths (envs : List CycleEnv) : ∀ s : WorkerState,
    s.transcript_accum.length < OLLAMA_CHUNK_SIZE_CHARS →
    (∀ b ∈ sessionBatches (runFrom s envs),
        OLLAMA_CHUNK_SIZE_CHARS ≤ b.length) ∧
      ((runFrom s envs).crashed = false →
        (runFrom s envs).final.transcript_accum.length <
          OLLAMA_CHUNK_SIZE_CHARS) ∧
      ((runFrom s envs).crashed = true →
        OLLAMA_CHUNK_SIZE_CHARS ≤
          (runFrom s envs).final.transcript_accum.length) := by
  induction envs with
  | nil =>
    intro s hs
    refine ⟨?_, fun _ => hs, fun hcr => Bool.noConfusion hcr⟩
    intro b hb
    simp [runFrom, sessionBatches] at hb
  | cons e es ih =>
    intro s hs
    cases hstep : cycleStep s e with
    | ok pr =>
      obtain ⟨s', r⟩ := pr
      have hinv := cycleStep_length s e s' r hs hstep
      refine ⟨?_, ?_, ?_⟩
      · intro b hb
        simp only [runFrom, hstep, sessionBatches, List.filterMap_cons] at hb
        cases hr : r.sumBatch with
        | none =>
          rw [hr] at hb
          exact ((ih s' hinv.1).1) b hb
        | some a =>
          rw [hr] at hb
          rcases List.mem_cons.mp hb with hba | hbm
          · subst hba; exact hinv.2 b hr
          · exact ((ih s' hinv.1).1) b hbm
      · simp only [runFrom, hstep]
        exact (ih s' hinv.1).2.1
      · simp only [runFrom, hstep]
        exact (ih s' hinv.1).2.2
    | error err =>
      obtain ⟨exc, sDead, r⟩ := err
      obtain ⟨chunk, backend, he, hc, hsDead, hr, hlen⟩ :=
        cycleStep_crash s e exc sDead r hstep
      subst hsDead; subst hr
      refine ⟨?_, ?_, ?_⟩
      · intro b hb
        simp only [runFrom, hstep, sessionBatches, List.filterMap_cons,
          List.filterMap_nil, List.mem_singleton] at hb
        subst hb
        exact hlen
      · intro hcr
        simp only [runFrom, hstep] at hcr
        exact Bool.noConfusion hcr
      · intro _
        simp only [runFrom, hstep]
        exact hlen

/-! ### Claim theorems -/

/-- Claim C1, counterexample: in a concrete Session (one cycle that
transcribes "hello", then stop) the number of Notifier deliveries is
zero, not one — `src/main.py` never invokes any mail delivery
(`smtplib` and `MIMEText` are imported but unused), so "exactly one
Notifier delivery per Session" is false. -/
theorem session_no_notification_cex :
    (runSession [CycleEnv.ok "hello" BackendResult.calledProcessError]).mails
        = [] ∧
    (runSession [CycleEnv.ok "hello"
        BackendResult.calledProcessError]).mails.length ≠ 1 :=
  ⟨rfl, by decide⟩

/-- Claim C1 (amended): no Notifier delivery at all is made during a
Session — the worker loop exits on stop (or dies on an uncaught
exception) without sending anything, so the "at most one delivery"
half of the invariant holds vacuously with zero deliveries. -/
theorem session_never_notifies :
    ∀ envs : List CycleEnv, (runSession envs).mails = [] :=
  fun envs => runFrom_mails envs initState

/-- Claim C2, counterexample: a Session whose single cycle appends the
chunk "hi" (pending text " hi", below threshold) and then receives the
stop signal terminates with the pending text still in the accumulator
and with zero `update_summary` calls — there is no draining flush, so
the claimed final `IncrementalSummarizer.update` call with the pending
text, followed by a reset, does not happen. -/
theorem stop_without_flush_cex :
    (runSession [CycleEnv.ok "hi"
        BackendResult.calledProcessError]).final.transcript_accum = " hi" ∧
    sessionBatches
        (runSession [CycleEnv.ok "hi" BackendResult.calledProcessError])
      = [] :=
  ⟨rfl, rfl⟩

/-- Claim C2 (amended): when the stop signal arrives the worker loop
simply exits — no draining occurs.  Every batch the summarizer ever
receives comes from an in-cycle threshold crossing (so has length at
least `OLLAMA_CHUNK_SIZE_CHARS`).  On a normal stop the pending text
left in the accumulator is strictly below the threshold and is
abandoned rather than flushed; when the worker dies on an uncaught
`update_summary` exception it is left holding the just-appended,
never-reset pending text of length at least the threshold (the reset at
src/main.py line 73 never runs). -/
theorem stop_terminates_without_draining :
    ∀ envs : List CycleEnv,
    (∀ b ∈ sessionBatches (runSession envs),
        OLLAMA_CHUNK_SIZE_CHARS ≤ b.length) ∧
    ((runSession envs).crashed = false →
      (runSession envs).final.transcript_accum.length <
        OLLAMA_CHUNK_SIZE_CHARS) ∧
    ((runSession envs).crashed = true →
      OLLAMA_CHUNK_SIZE_CHARS ≤
        (runSession envs).final.transcript_accum.length) :=
  fun envs => runFrom_lengths envs initState (by decide)

/-- Claim C2 witness: a concrete threshold-crossing batch (length
500 ≥ 500); the final accumulator of that same (non-crashing) Session
is below the threshold; and a crashing Session (backend stdout "0" is
valid non-object JSON, so `.get` raises) dies holding pending text at
or above the threshold. -/
theorem stop_terminates_without_draining_witness :
    OLLAMA_CHUNK_SIZE_CHARS ≤ (" " ++ chunk499).length ∧
    (runSession [CycleEnv.ok chunk499
        BackendResult.calledProcessError]).final.transcript_accum.length <
      OLLAMA_CHUNK_SIZE_CHARS ∧
    OLLAMA_CHUNK_SIZE_CHARS ≤
      (runSession [CycleEnv.ok chunk499
          (BackendResult.success "0"
            JsonOutcome.nonDict)]).final.transcript_accum.length :=
  ⟨(stop_terminates_without_draining
      [CycleEnv.ok chunk499 BackendResult.calledProcessError]).1
      (" " ++ chunk499) (by decide),
   (stop_terminates_without_draining
      [CycleEnv.ok chunk499 BackendResult.calledProcessError]).2.1
      (by decide),
   (stop_terminates_without_draining
      [CycleEnv.ok chunk499
        (BackendResult.success "0" JsonOutcome.nonDict)]).2.2
      (by decide)⟩

/-- Claim C3 (code bug): evaluating the loop at the failing input — a
cycle whose `download_segment` returns `False` — shows the two scratch
files of that cycle are NOT deleted (the `continue` at src/main.py line
57 bypasses the `finally` cleanup at lines 65-67), even though the next
cycle (here a normalization-failure cycle, which does clean up) already
begins.  The spec requires both scratch files to be absent before the
next acquisition on every exit path. -/
theorem scratch_files_leak_on_download_failure :
    ((runSession [CycleEnv.dlFail, CycleEnv.extractFail]).recs.map
      (fun r => r.filesDeleted)) = [false, true] :=
  rfl

/-- Claim C4: whenever the backend invocation fails
(`subprocess.CalledProcessError` from `check=True`), `update_summary`
returns the current summary unchanged, for every current summary and
batch — the failure is absorbed and never erases prior content. -/
theorem update_summary_failure_keeps_current :
    ∀ current new_chunk : String,
    update_summary current new_chunk BackendResult.calledProcessError =
      Except.ok current :=
  fun _ _ => rfl

/-- Claim C5, counterexample: when the backend succeeds and its stdout
is valid JSON that merely lacks the `completion` key (a structural
mismatch), `update_summary` does NOT fall back to the raw response:
`parsed.get('completion', current)` yields the current summary, so the
call returns `"PREV"` stripped, not the stripped stdout. -/
theorem update_summary_keyless_json_cex :
    update_summary "PREV" "batch"
        (BackendResult.success "\x7b\"note\": 1\x7d" (JsonOutcome.dict none))
      = Except.ok "PREV" ∧
    pyStrip "\x7b\"note\": 1\x7d" ≠ "PREV" :=
  ⟨rfl, by decide⟩

/-- Claim C5 (amended): on backend success, keyed parsing is attempted
first; the whole-raw-response-trimmed fallback applies exactly when the
response is not valid JSON (`json.JSONDecodeError`).  A JSON object
carrying the key returns that value trimmed; a JSON object lacking the
key returns the current summary trimmed (not the raw response); a JSON
value that is not an object raises an uncaught `AttributeError`. -/
theorem update_summary_parse_policy :
    ∀ current new_chunk stdout c : String,
    update_summary current new_chunk
        (BackendResult.success stdout JsonOutcome.decodeError) =
      Except.ok (pyStrip stdout) ∧
    update_summary current new_chunk
        (BackendResult.success stdout (JsonOutcome.dict (some c))) =
      Except.ok (pyStrip c) ∧
    update_summary current new_chunk
        (BackendResult.success stdout (JsonOutcome.dict none)) =
      Except.ok (pyStrip current) ∧
    update_summary current new_chunk
        (BackendResult.success stdout JsonOutcome.nonDict) =
      Except.error PyExc.attributeError :=
  fun _ _ _ _ => ⟨rfl, rfl, rfl, rfl⟩

/-- Claim C6: in every completed cycle that appends a non-empty chunk,
a summarization is triggered exactly when the pending text (after the
append) has reached the threshold `OLLAMA_CHUNK_SIZE_CHARS`, and
whenever it is triggered the pending text is reset to length 0. -/
theorem accumulator_ready_iff_threshold (s : WorkerState) (chunk : String)
    (backend : BackendResult) (s' : WorkerState) (r : CycleRec)
    (hc : chunk ≠ "")
    (h : cycleStep s (.ok chunk backend) = .ok (s', r)) :
    (r.sumBatch.isSome = true ↔
      OLLAMA_CHUNK_SIZE_CHARS ≤
        (s.transcript_accum ++ " " ++ chunk).length) ∧
    (r.sumBatch.isSome = true → s'.transcript_accum.length = 0) := by
  by_cases hlen : OLLAMA_CHUNK_SIZE_CHARS ≤
      (s.transcript_accum ++ " " ++ chunk).length
  · cases hu : update_summary s.summary
        (s.transcript_accum ++ " " ++ chunk) backend with
    | ok ns =>
      simp only [cycleStep, if_neg hc, if_pos hlen, hu,
        Except.ok.injEq, Prod.mk.injEq] at h
      obtain ⟨h1, h2⟩ := h
      subst h1; subst h2
      exact ⟨⟨fun _ => hlen, fun _ => rfl⟩, fun _ => rfl⟩
    | error exc =>
      simp only [cycleStep, if_neg hc, if_pos hlen, hu] at h
      exact Except.noConfusion h
  · simp only [cycleStep, if_neg hc, if_neg hlen,
      Except.ok.injEq, Prod.mk.injEq] at h
    obtain ⟨h1, h2⟩ := h
    subst h1; subst h2
    exact ⟨⟨fun hk => Bool.noConfusion hk, fun hcond => absurd hcond hlen⟩,
      fun hk => Bool.noConfusion hk⟩

/-- Claim C6 witness: a concrete completed cycle (fresh worker, chunk
"hi", 3 < 500) on which the ready-iff-threshold equivalence and the
reset implication hold. -/
theorem accumulator_ready_iff_threshold_witness :
    (((⟨true, none⟩ : CycleRec).sumBatch.isSome = true ↔
      OLLAMA_CHUNK_SIZE_CHARS ≤
        (initState.transcript_accum ++ " " ++ "hi").length) ∧
     ((⟨true, none⟩ : CycleRec).sumBatch.isSome = true →
      (⟨"", " hi"⟩ : WorkerState).transcript_accum.length = 0)) :=
  accumulator_ready_iff_threshold initState "hi"
    BackendResult.calledProcessError ⟨"", " hi"⟩ ⟨true, none⟩
    (by decide) rfl

/-- Claim C7, counterexample: when the source offers a rendition but
yields no data at all (the very first `fd.read` returns empty),
`download_segment` still reports success — `return True` is reached
with an empty output file — contradicting "reports failure whenever
the source yields no data before the time budget elapses" and "reports
success only when usable segment data was captured". -/
theorem download_reports_success_without_data_cex :
    (download_segment false (some ()) [""]).1 = true ∧
    (download_segment false (some ()) [""]).2 = [] :=
  ⟨rfl, rfl⟩

/-- Claim C7 (amended): `download_segment` reports failure exactly when
no usable rendition is offered or an exception is raised during
acquisition; in every other case it reports success — including when
the source yields no data before the time budget elapses, in which case
the captured segment is empty. -/
theorem download_segment_failure_iff :
    ∀ (raises : Bool) (best : Option Unit) (reads : List String),
    ((download_segment raises best reads).1 = false ↔
      raises = true ∨ best = none) ∧
    download_segment false (some ()) reads = (true, segLoop reads) := by
  intro raises best reads
  refine ⟨?_, rfl⟩
  cases raises <;> cases best <;> simp [download_segment]

/-- Claim C8: a transcription-backend failure is caught inside the
cycle: its effect on the worker state and on the summarizer is exactly
that of an empty transcript chunk, the cycle releases its scratch
files, the failure is never propagated (the step returns normally, not
an exception), and the loop proceeds to the following cycles
unchanged. -/
theorem transcription_failure_acts_as_empty_chunk :
    ∀ (s : WorkerState) (backend : BackendResult) (envs : List CycleEnv),
    cycleStep s .extractFail = cycleStep s (.ok "" backend) ∧
    cycleStep s .extractFail = .ok (s, ⟨true, none⟩) ∧
    runFrom s (.extractFail :: envs) =
      ⟨(runFrom s envs).final, ⟨true, none⟩ :: (runFrom s envs).recs,
       (runFrom s envs).crashed, (runFrom s envs).mails⟩ :=
  fun _ _ _ => ⟨rfl, rfl, rfl⟩

/-- Claim C9: the pending text built by repeated
`transcript_accum += " " + chunk` from an empty accumulator is
`" " ++ c1 ++ " " ++ c2 ++ ... ++ " " ++ ck` (a separating space before
every chunk, the first included), its length is the number of chunks
plus the sum of the chunk lengths, it begins with a space whenever any
chunk was appended, and every batch handed to the summarizer during a
Session begins with a space. -/
theorem pending_text_shape :
    (∀ cs : List String, pendingOf cs = pendingShape cs) ∧
    (∀ cs : List String,
      (pendingOf cs).length = cs.length + (cs.map String.length).sum) ∧
    (∀ cs : List String, cs ≠ [] → ∃ t, pendingOf cs = " " ++ t) ∧
    (∀ envs : List CycleEnv, ∀ b ∈ sessionBatches (runSession envs),
      ∃ t, b = " " ++ t) := by
  have h1 : ∀ cs : List String, pendingOf cs = pendingShape cs := by
    intro cs
    rw [pendingOf, foldl_appendChunk, String.empty_append]
  refine ⟨h1, ?_, ?_, ?_⟩
  · intro cs; rw [h1]; exact pendingShape_length cs
  · intro cs h; rw [h1]; exact pendingShape_starts_space cs h
  · intro envs b hb
    exact runFrom_batches_space envs initState (Or.inl rfl) b hb

/-- Claim C9 witness: the shape facts instantiated on the concrete
chunk list `["ab", "c"]` and on a concrete Session batch. -/
theorem pending_text_shape_witness :
    (∃ t, pendingOf ["ab", "c"] = " " ++ t) ∧
    (∃ t, (" " ++ chunk499) = " " ++ t) :=
  ⟨pending_text_shape.2.2.1 ["ab", "c"] (by decide),
   pending_text_shape.2.2.2
     [CycleEnv.ok chunk499 BackendResult.calledProcessError]
     (" " ++ chunk499) (by decide)⟩

/-- Claim C10: when the backend exits with status 0 and its stdout is
not valid JSON (`json.loads` raises), `update_summary` returns the
stdout stripped of surrounding whitespace, for every current summary
and batch; in particular, when the stripped output is empty the call
returns the empty string, replacing whatever summary existed.  (The
empty and all-whitespace outputs are decode errors: `json.loads` on
them raises `JSONDecodeError`.) -/
theorem update_summary_raw_fallback :
    ∀ current new_chunk stdout : String,
    update_summary current new_chunk
        (BackendResult.success stdout JsonOutcome.decodeError) =
      Except.ok (pyStrip stdout) ∧
    (pyStrip stdout = "" →
      update_summary current new_chunk
          (BackendResult.success stdout JsonOutcome.decodeError) =
        Except.ok "") := by
  intro current new_chunk stdout
  exact ⟨rfl, fun h => by simp [update_summary, h]⟩

/-- Claim C10 witness: a successful backend call whose output is all
whitespace replaces the non-empty summary "prior" with the empty
string. -/
theorem update_summary_raw_fallback_witness :
    update_summary "prior" "b"
        (BackendResult.success "   " JsonOutcome.decodeError) =
      Except.ok "" :=
  (update_summary_raw_fallback "prior" "b" "   ").2 (by decide)

end BroadcastBuddy
